import Mathlib

/-!
# Verification of the protocol-engine core

Shallow embedding of the protocol-engine repository (economic model,
feature-activation registry, protocol validation layering and the peer
message processor) together with proofs of the specification claims.

Rust `u64`/`u32` quantities are modelled as `Nat`.  All operations the
claims touch stay far below the machine-word bounds (subsidies only ever
shrink via right shifts, sizes are sums of list lengths), so no modular
reduction is needed; where the Rust code would panic (division by zero)
the theorems carry an explicit positivity hypothesis instead of relying
on the `Nat` convention.
-/

/-- Protocol versions (src/lib.rs `ProtocolVersion`). -/
inductive ProtocolVersion where
  | BitcoinV1
  | Testnet3
  | Regtest
deriving DecidableEq, Repr

/-- Economic model parameters (src/economic.rs `EconomicParameters`).
`subsidy_schedule` is the custom (height, subsidy) schedule. -/
structure EconomicParameters where
  initial_subsidy : Nat
  halving_interval : Nat
  max_money_supply : Nat
  coinbase_maturity : Nat
  dust_limit : Nat
  min_fee_rate : Nat
  max_fee_rate : Nat
  min_relay_fee : Nat
  subsidy_schedule : List (Nat × Nat)
deriving DecidableEq, Repr

/-- src/economic.rs `EconomicParameters::mainnet`. -/
def EconomicParameters.mainnet : EconomicParameters where
  initial_subsidy := 5000000000
  halving_interval := 210000
  max_money_supply := 2100000000000000
  coinbase_maturity := 100
  dust_limit := 546
  min_fee_rate := 1
  max_fee_rate := 1000000
  min_relay_fee := 1000
  subsidy_schedule := []

/-- src/economic.rs `EconomicParameters::testnet`. -/
def EconomicParameters.testnet : EconomicParameters where
  initial_subsidy := 5000000000
  halving_interval := 210000
  max_money_supply := 2100000000000000
  coinbase_maturity := 100
  dust_limit := 546
  min_fee_rate := 1
  max_fee_rate := 1000000
  min_relay_fee := 1000
  subsidy_schedule := []

/-- src/economic.rs `EconomicParameters::regtest`. -/
def EconomicParameters.regtest : EconomicParameters where
  initial_subsidy := 5000000000
  halving_interval := 150
  max_money_supply := 2100000000000000
  coinbase_maturity := 100
  dust_limit := 546
  min_fee_rate := 0
  max_fee_rate := 1000000
  min_relay_fee := 0
  subsidy_schedule := []

/-- src/economic.rs `EconomicParameters::for_protocol`. -/
def EconomicParameters.for_protocol : ProtocolVersion → EconomicParameters
  | .BitcoinV1 => EconomicParameters.mainnet
  | .Testnet3 => EconomicParameters.testnet
  | .Regtest => EconomicParameters.regtest

/-- The `for (schedule_height, subsidy) in self.subsidy_schedule.iter().rev()`
loop body of src/economic.rs `get_block_subsidy`: the argument list is the
already-reversed schedule; the first entry with `height >= schedule_height`
returns its subsidy, the fall-through returns 0. -/
def subsidyScheduleLoop : List (Nat × Nat) → Nat → Nat
  | [], _ => 0
  | (schedule_height, subsidy) :: rest, height =>
      if height ≥ schedule_height then subsidy else subsidyScheduleLoop rest height

/-- src/economic.rs `EconomicParameters::get_block_subsidy`. -/
def EconomicParameters.get_block_subsidy (p : EconomicParameters) (height : Nat) : Nat :=
  if p.subsidy_schedule ≠ [] then
    subsidyScheduleLoop p.subsidy_schedule.reverse height
  else
    let halving_period := height / p.halving_interval
    if halving_period ≥ 64 then 0
    else p.initial_subsidy >>> halving_period

/-- The spec's wording of the schedule lookup ("scan it from the end
(highest height) and return the subsidy of the first entry whose
height ≤ target; if the schedule is set but no entry qualifies, return 0"),
stated independently of the source loop for the refinement claim C2. -/
def scheduleLookupSpec (schedule : List (Nat × Nat)) (height : Nat) : Nat :=
  match schedule.reverse.find? (fun e => decide (e.1 ≤ height)) with
  | some e => e.2
  | none => 0

theorem subsidyScheduleLoop_eq_find (l : List (Nat × Nat)) (height : Nat) :
    subsidyScheduleLoop l height =
      (match l.find? (fun e => decide (e.1 ≤ height)) with
       | some e => e.2
       | none => 0) := by
  induction l with
  | nil => rfl
  | cons e rest ih =>
      obtain ⟨sh, s⟩ := e
      by_cases hc : sh ≤ height
      · simp [subsidyScheduleLoop, List.find?, hc]
      · simp [subsidyScheduleLoop, List.find?, hc, ih]

/-- C2: with a non-empty subsidy schedule, `get_block_subsidy` returns the
subsidy of the last schedule entry whose height does not exceed the target
(scanning from the end), 0 when no entry qualifies, and the halving
parameters (`initial_subsidy`, `halving_interval`) are never consulted. -/
theorem c2_schedule_precedence (p : EconomicParameters) (height : Nat)
    (hs : p.subsidy_schedule ≠ []) :
    p.get_block_subsidy height = scheduleLookupSpec p.subsidy_schedule height
    ∧ ∀ init interval,
        EconomicParameters.get_block_subsidy
          { p with initial_subsidy := init, halving_interval := interval } height
        = p.get_block_subsidy height := by
  constructor
  · simp only [EconomicParameters.get_block_subsidy, if_pos hs, scheduleLookupSpec]
    exact subsidyScheduleLoop_eq_find p.subsidy_schedule.reverse height
  · intro init interval
    simp [EconomicParameters.get_block_subsidy, hs]

/-- Concrete economic parameters with a custom schedule (as in the repo's
`test_custom_subsidy_schedule`), used to instantiate C2. -/
def customScheduleParams : EconomicParameters :=
  { EconomicParameters.mainnet with
    subsidy_schedule := [(0, 10000000000), (1000, 5000000000), (210000, 2500000000)] }

theorem c2_schedule_precedence_witness :
    customScheduleParams.get_block_subsidy 1500
      = scheduleLookupSpec customScheduleParams.subsidy_schedule 1500
    ∧ customScheduleParams.get_block_subsidy 1500 = 5000000000 :=
  ⟨(c2_schedule_precedence customScheduleParams 1500 (by decide)).1, by decide⟩

/-- C3: with an empty schedule, `get_block_subsidy` is the halving formula:
zero from the 64th halving on, otherwise the initial subsidy divided by
`2 ^ halving_period` (the right shift is exact integer halving).  The
positivity hypothesis on the halving interval reflects that `u64` division
in the source requires a non-zero divisor. -/
theorem c3_halving_formula (p : EconomicParameters) (height : Nat)
    (hs : p.subsidy_schedule = []) (_hpos : 0 < p.halving_interval) :
    p.get_block_subsidy height =
      if 64 ≤ height / p.halving_interval then 0
      else p.initial_subsidy / 2 ^ (height / p.halving_interval) := by
  simp only [EconomicParameters.get_block_subsidy, hs, ne_eq, not_true_eq_false,
    if_false, ge_iff_le, Nat.shiftRight_eq_div_pow]

theorem c3_halving_formula_witness :
    EconomicParameters.mainnet.subsidy_schedule = []
    ∧ 0 < EconomicParameters.mainnet.halving_interval
    ∧ EconomicParameters.mainnet.get_block_subsidy 420000 =
        if 64 ≤ 420000 / EconomicParameters.mainnet.halving_interval then 0
        else EconomicParameters.mainnet.initial_subsidy /
          2 ^ (420000 / EconomicParameters.mainnet.halving_interval) :=
  ⟨rfl, by decide, c3_halving_formula EconomicParameters.mainnet 420000 rfl (by decide)⟩

theorem get_block_subsidy_antitone (p : EconomicParameters) (height : Nat)
    (hs : p.subsidy_schedule = []) (hpos : 0 < p.halving_interval) :
    p.get_block_subsidy (height + 1) ≤ p.get_block_subsidy height := by
  rw [c3_halving_formula p height hs hpos, c3_halving_formula p (height + 1) hs hpos]
  have hk : height / p.halving_interval ≤ (height + 1) / p.halving_interval :=
    Nat.div_le_div_right (Nat.le_succ height)
  by_cases h1 : 64 ≤ height / p.halving_interval
  · rw [if_pos h1, if_pos (le_trans h1 hk)]
  · rw [if_neg h1]
    by_cases h2 : 64 ≤ (height + 1) / p.halving_interval
    · rw [if_pos h2]; exact Nat.zero_le _
    · rw [if_neg h2]
      exact Nat.div_le_div_left (Nat.pow_le_pow_right (by omega) hk) (Nat.pos_pow_of_pos _ (by omega))

/-- C4: for the default (empty-schedule, mainnet) halving configuration the
block subsidy never increases with height, and it is zero at and past the
64th halving boundary. -/
theorem c4_subsidy_monotone_and_zero (height : Nat) :
    EconomicParameters.mainnet.get_block_subsidy (height + 1)
      ≤ EconomicParameters.mainnet.get_block_subsidy height
    ∧ (64 ≤ height / EconomicParameters.mainnet.halving_interval →
        EconomicParameters.mainnet.get_block_subsidy height = 0) := by
  refine ⟨get_block_subsidy_antitone _ height rfl (by decide), fun hb => ?_⟩
  rw [c3_halving_formula EconomicParameters.mainnet height rfl (by decide), if_pos hb]

theorem c4_subsidy_monotone_and_zero_witness :
    EconomicParameters.mainnet.get_block_subsidy 13440001
      ≤ EconomicParameters.mainnet.get_block_subsidy 13440000
    ∧ EconomicParameters.mainnet.get_block_subsidy 13440000 = 0 :=
  ⟨(c4_subsidy_monotone_and_zero 13440000).1,
   (c4_subsidy_monotone_and_zero 13440000).2 (by decide)⟩

/-- Feature activation method (src/features.rs `ActivationMethod`). -/
inductive ActivationMethod where
  | BIP9
  | HeightBased
  | Timestamp
  | HardFork
  | AlwaysActive
deriving DecidableEq, Repr

/-- Feature activation record (src/features.rs `FeatureActivation`). -/
structure FeatureActivation where
  feature_name : String
  activation_height : Option Nat
  activation_timestamp : Option Nat
  activation_method : ActivationMethod
  bip_number : Option Nat
deriving DecidableEq, Repr

/-- src/features.rs `FeatureActivation::is_active_at`.  The `BIP9` branch
mirrors `is_some_and` / `map_or(false, ..)` on the two optional thresholds. -/
def FeatureActivation.is_active_at (f : FeatureActivation)
    (height timestamp : Nat) : Bool :=
  match f.activation_method with
  | .AlwaysActive => true
  | .HardFork => true
  | .HeightBased =>
      match f.activation_height with
      | some activation_height => decide (height ≥ activation_height)
      | none => false
  | .Timestamp =>
      match f.activation_timestamp with
      | some activation_timestamp => decide (timestamp ≥ activation_timestamp)
      | none => false
  | .BIP9 =>
      let height_active :=
        match f.activation_height with
        | some h => decide (height ≥ h)
        | none => false
      let timestamp_active :=
        match f.activation_timestamp with
        | some t => decide (timestamp ≥ t)
        | none => false
      height_active || timestamp_active

/-- Feature activation registry (src/features.rs `FeatureRegistry`). -/
structure FeatureRegistry where
  protocol_version : ProtocolVersion
  features : List FeatureActivation
deriving DecidableEq, Repr

/-- src/features.rs `FeatureRegistry::mainnet`. -/
def FeatureRegistry.mainnet : FeatureRegistry where
  protocol_version := .BitcoinV1
  features :=
    [ { feature_name := "segwit", activation_height := some 481824,
        activation_timestamp := some 1503539857,
        activation_method := .BIP9, bip_number := some 141 },
      { feature_name := "taproot", activation_height := some 709632,
        activation_timestamp := some 1636934400,
        activation_method := .BIP9, bip_number := some 341 },
      { feature_name := "rbf", activation_height := some 0,
        activation_timestamp := none,
        activation_method := .AlwaysActive, bip_number := some 125 },
      { feature_name := "ctv", activation_height := none,
        activation_timestamp := none,
        activation_method := .BIP9, bip_number := some 119 },
      { feature_name := "csv", activation_height := some 0,
        activation_timestamp := none,
        activation_method := .AlwaysActive, bip_number := some 112 },
      { feature_name := "cltv", activation_height := some 0,
        activation_timestamp := none,
        activation_method := .AlwaysActive, bip_number := some 65 } ]

/-- src/features.rs `FeatureRegistry::testnet`. -/
def FeatureRegistry.testnet : FeatureRegistry where
  protocol_version := .Testnet3
  features :=
    [ { feature_name := "segwit", activation_height := some 465600,
        activation_timestamp := some 1493596800,
        activation_method := .BIP9, bip_number := some 141 },
      { feature_name := "taproot", activation_height := some 2016000,
        activation_timestamp := some 1628640000,
        activation_method := .BIP9, bip_number := some 341 },
      { feature_name := "rbf", activation_height := some 0,
        activation_timestamp := none,
        activation_method := .AlwaysActive, bip_number := some 125 },
      { feature_name := "csv", activation_height := some 0,
        activation_timestamp := none,
        activation_method := .AlwaysActive, bip_number := some 112 },
      { feature_name := "cltv", activation_height := some 0,
        activation_timestamp := none,
        activation_method := .AlwaysActive, bip_number := some 65 } ]

/-- src/features.rs `FeatureRegistry::regtest`. -/
def FeatureRegistry.regtest : FeatureRegistry where
  protocol_version := .Regtest
  features :=
    [ { feature_name := "segwit", activation_height := some 0,
        activation_timestamp := none,
        activation_method := .AlwaysActive, bip_number := some 141 },
      { feature_name := "taproot", activation_height := some 0,
        activation_timestamp := none,
        activation_method := .AlwaysActive, bip_number := some 341 },
      { feature_name := "rbf", activation_height := some 0,
        activation_timestamp := none,
        activation_method := .AlwaysActive, bip_number := some 125 },
      { feature_name := "csv", activation_height := some 0,
        activation_timestamp := none,
        activation_method := .AlwaysActive, bip_number := some 112 },
      { feature_name := "cltv", activation_height := some 0,
        activation_timestamp := none,
        activation_method := .AlwaysActive, bip_number := some 65 },
      { feature_name := "fast_mining", activation_height := some 0,
        activation_timestamp := none,
        activation_method := .AlwaysActive, bip_number := none } ]

/-- src/features.rs `FeatureRegistry::for_protocol`. -/
def FeatureRegistry.for_protocol : ProtocolVersion → FeatureRegistry
  | .BitcoinV1 => FeatureRegistry.mainnet
  | .Testnet3 => FeatureRegistry.testnet
  | .Regtest => FeatureRegistry.regtest

/-- src/features.rs `FeatureRegistry::is_feature_active`
(`find(..).map(..).unwrap_or(false)`). -/
def FeatureRegistry.is_feature_active (reg : FeatureRegistry)
    (feature_name : String) (height timestamp : Nat) : Bool :=
  match reg.features.find? (fun f => f.feature_name == feature_name) with
  | some f => f.is_active_at height timestamp
  | none => false

/-- Feature context snapshot (src/features.rs `FeatureContext`). -/
structure FeatureContext where
  segwit : Bool
  taproot : Bool
  csv : Bool
  cltv : Bool
  rbf : Bool
  ctv : Bool
  height : Nat
  timestamp : Nat
deriving DecidableEq, Repr

/-- src/features.rs `FeatureRegistry::create_context`. -/
def FeatureRegistry.create_context (reg : FeatureRegistry)
    (height timestamp : Nat) : FeatureContext where
  segwit := reg.is_feature_active "segwit" height timestamp
  taproot := reg.is_feature_active "taproot" height timestamp
  csv := reg.is_feature_active "csv" height timestamp
  cltv := reg.is_feature_active "cltv" height timestamp
  rbf := reg.is_feature_active "rbf" height timestamp
  ctv := reg.is_feature_active "ctv" height timestamp
  height := height
  timestamp := timestamp

/-- C1 counterexample: on the regression-test variant the registry holds no
"ctv" entry, so the FeatureContext built at (0, genesis time) reports `ctv`
inactive, contradicting "every tracked feature flag is true". -/
theorem c1_regtest_ctv_counterexample :
    (FeatureRegistry.regtest.create_context 0 1231006505).ctv = false := by decide

/-- C1 (amended): the FeatureContext at (0, genesis time) on the
regression-test variant has segwit, taproot, csv, cltv and rbf true and ctv
false (the regtest registry has no "ctv" entry); on the production variant
it has rbf, csv, cltv true and segwit, taproot, ctv false. -/
theorem c1_feature_context_at_genesis_amended :
    ((FeatureRegistry.regtest.create_context 0 1231006505).segwit = true
      ∧ (FeatureRegistry.regtest.create_context 0 1231006505).taproot = true
      ∧ (FeatureRegistry.regtest.create_context 0 1231006505).csv = true
      ∧ (FeatureRegistry.regtest.create_context 0 1231006505).cltv = true
      ∧ (FeatureRegistry.regtest.create_context 0 1231006505).rbf = true
      ∧ (FeatureRegistry.regtest.create_context 0 1231006505).ctv = false)
    ∧ ((FeatureRegistry.mainnet.create_context 0 1231006505).rbf = true
      ∧ (FeatureRegistry.mainnet.create_context 0 1231006505).csv = true
      ∧ (FeatureRegistry.mainnet.create_context 0 1231006505).cltv = true
      ∧ (FeatureRegistry.mainnet.create_context 0 1231006505).segwit = false
      ∧ (FeatureRegistry.mainnet.create_context 0 1231006505).taproot = false
      ∧ (FeatureRegistry.mainnet.create_context 0 1231006505).ctv = false) := by
  decide

/-- A BIP9 activation whose two thresholds are both 0, refuting the claim's
"(H−1, T−1) is inactive" at the degenerate boundary. -/
def bip9BothZero : FeatureActivation where
  feature_name := "zero"
  activation_height := some 0
  activation_timestamp := some 0
  activation_method := .BIP9
  bip_number := none

/-- C5 counterexample: for a BIP9 activation with activation height H = 0 and
activation timestamp T = 0, evaluation at (H − 1, T − 1) = (0, 0) is active,
not inactive as the claim states (in the source `u64` arithmetic H − 1 would
underflow; with truncated subtraction the point is (0, 0), which satisfies
`height ≥ H`). -/
theorem c5_bip9_counterexample :
    bip9BothZero.activation_method = .BIP9
    ∧ bip9BothZero.activation_height = some 0
    ∧ bip9BothZero.activation_timestamp = some 0
    ∧ bip9BothZero.is_active_at (0 - 1) (0 - 1) = true := by decide

/-- C5 (amended): a BIP9 activation is active iff a set activation height is
reached or a set activation timestamp is reached (logical OR); with both
thresholds H, T set it is active at (H, 0), (0, T) and (H, T), and — provided
1 ≤ H and 1 ≤ T, so the subtractions do not underflow — inactive at
(H − 1, T − 1); with neither threshold set it is never active. -/
theorem c5_bip9_or_semantics_amended (f : FeatureActivation)
    (hm : f.activation_method = .BIP9) (height timestamp : Nat) :
    (f.is_active_at height timestamp = true ↔
      (∃ H, f.activation_height = some H ∧ H ≤ height)
      ∨ (∃ T, f.activation_timestamp = some T ∧ T ≤ timestamp))
    ∧ (∀ H T, f.activation_height = some H → f.activation_timestamp = some T →
        f.is_active_at H 0 = true
        ∧ f.is_active_at 0 T = true
        ∧ f.is_active_at H T = true
        ∧ (1 ≤ H → 1 ≤ T → f.is_active_at (H - 1) (T - 1) = false))
    ∧ (f.activation_height = none → f.activation_timestamp = none →
        f.is_active_at height timestamp = false) := by
  refine ⟨?_, ?_, ?_⟩
  · cases hh : f.activation_height <;> cases ht : f.activation_timestamp <;>
      simp [FeatureActivation.is_active_at, hm, hh, ht]
  · intro H T hh ht
    refine ⟨?_, ?_, ?_, fun hH hT => ?_⟩
    · simp [FeatureActivation.is_active_at, hm, hh, ht]
    · simp [FeatureActivation.is_active_at, hm, hh, ht]
    · simp [FeatureActivation.is_active_at, hm, hh, ht]
    · simp [FeatureActivation.is_active_at, hm, hh, ht]
      omega
  · intro hh ht
    simp [FeatureActivation.is_active_at, hm, hh, ht]

theorem c5_bip9_or_semantics_witness :
    let segwit : FeatureActivation :=
      { feature_name := "segwit", activation_height := some 481824,
        activation_timestamp := some 1503539857,
        activation_method := .BIP9, bip_number := some 141 }
    segwit.is_active_at 481824 0 = true
    ∧ segwit.is_active_at 0 1503539857 = true
    ∧ segwit.is_active_at 481824 1503539857 = true
    ∧ segwit.is_active_at 481823 1503539856 = false := by
  intro segwit
  have h := (c5_bip9_or_semantics_amended segwit rfl 0 0).2.1
    481824 1503539857 rfl rfl
  exact ⟨h.1, h.2.1, h.2.2.1, h.2.2.2 (by decide) (by decide)⟩

/-- C9: on the production and test registries the "ctv" feature is never
active — the mainnet entry is BIP9 with neither threshold set, and the
testnet registry has no "ctv" entry at all. -/
theorem c9_ctv_inactive (height timestamp : Nat) :
    FeatureRegistry.mainnet.is_feature_active "ctv" height timestamp = false
    ∧ FeatureRegistry.testnet.is_feature_active "ctv" height timestamp = false :=
  ⟨rfl, rfl⟩

/-- A 32-byte hash from the external consensus crate, modelled per the
spec's interface contract. -/
def Hash := List Nat
deriving instance DecidableEq, Repr for Hash

/-- Outpoint (external consensus crate type, per spec section 6). -/
structure OutPoint where
  hash : Hash
  index : Nat
deriving DecidableEq, Repr

/-- Unspent output (external consensus crate type, per spec section 6:
value, locking script, origin height). -/
structure UTXO where
  value : Nat
  script_pubkey : List Nat
  height : Nat
deriving DecidableEq, Repr

/-- UTXO snapshot: a mapping from outpoints to unspent outputs (spec
section 6), modelled as an association list. -/
def UtxoSet := List (OutPoint × UTXO)
deriving instance DecidableEq, Repr for UtxoSet

/-- Transaction input (external consensus crate type). -/
structure TransactionInput where
  prevout : OutPoint
  script_sig : List Nat
  sequence : Nat
deriving DecidableEq, Repr

/-- Transaction output (external consensus crate type). -/
structure TransactionOutput where
  value : Nat
  script_pubkey : List Nat
deriving DecidableEq, Repr

/-- Transaction (external consensus crate type). -/
structure Transaction where
  version : Nat
  inputs : List TransactionInput
  outputs : List TransactionOutput
  lock_time : Nat
deriving DecidableEq, Repr

/-- Block header (external consensus crate type). -/
structure BlockHeader where
  version : Nat
  prev_block_hash : Hash
  merkle_root : Hash
  timestamp : Nat
  bits : Nat
  nonce : Nat
deriving DecidableEq, Repr

/-- Block (external consensus crate type). -/
structure Block where
  header : BlockHeader
  transactions : List Transaction
deriving DecidableEq, Repr

/-- Consensus validation outcome (external consensus crate,
spec section 6: Valid or Invalid with a reason). -/
inductive ValidationResult where
  | Valid
  | Invalid (reason : String)
deriving DecidableEq, Repr

/-- Consensus error class (`consensus_proof::error::ConsensusError`
constructors used by this repository). -/
inductive ConsensusError where
  | BlockValidation (msg : String)
  | TransactionValidation (msg : String)
deriving DecidableEq, Repr

/-- The crate's `Result<T>` alias over `ConsensusError`. -/
abbrev CResult (α : Type) := Except ConsensusError α

/-- Modelled from the spec: the external consensus engine collaborator
(`ConsensusProof`, not part of this repository).  Spec section 6 gives its
contract as `validate_block(block, utxo_snapshot, height) ->
(ValidationResult, side_effects)` and `validate_transaction(tx) ->
ValidationResult`; it is modelled as an abstract pair of functions. -/
structure ConsensusProof where
  validate_block : Block → UtxoSet → Nat → CResult (ValidationResult × UtxoSet)
  validate_transaction : Transaction → CResult ValidationResult

/-- Modelled from the spec: the genesis module (`genesis.rs`) is declared by
lib.rs but its source is not under src/; the spec treats genesis blocks as
static data tables out of scope.  Each genesis block is modelled as a fixed
placeholder block; no claim inspects its contents. -/
def genesis.mainnet_genesis : Block :=
  { header := { version := 1, prev_block_hash := List.replicate 32 0,
                merkle_root := List.replicate 32 0, timestamp := 1231006505,
                bits := 0x1d00ffff, nonce := 0 },
    transactions := [] }

/-- Modelled from the spec: testnet genesis placeholder (see
`genesis.mainnet_genesis`). -/
def genesis.testnet_genesis : Block :=
  { header := { version := 1, prev_block_hash := List.replicate 32 0,
                merkle_root := List.replicate 32 0, timestamp := 1296688602,
                bits := 0x1d00ffff, nonce := 0 },
    transactions := [] }

/-- Modelled from the spec: regtest genesis placeholder (see
`genesis.mainnet_genesis`). -/
def genesis.regtest_genesis : Block :=
  { header := { version := 1, prev_block_hash := List.replicate 32 0,
                merkle_root := List.replicate 32 0, timestamp := 1296688602,
                bits := 0x207fffff, nonce := 0 },
    transactions := [] }

/-- Network parameters (src/lib.rs `NetworkParameters`). -/
structure NetworkParameters where
  magic_bytes : List Nat
  default_port : Nat
  genesis_block : Block
  max_target : Nat
  halving_interval : Nat
  network_name : String
  is_testnet : Bool
deriving DecidableEq, Repr

/-- src/lib.rs `NetworkParameters::mainnet`. -/
def NetworkParameters.mainnet : CResult NetworkParameters :=
  .ok { magic_bytes := [0xf9, 0xbe, 0xb4, 0xd9], default_port := 8333,
        genesis_block := genesis.mainnet_genesis, max_target := 0x1d00ffff,
        halving_interval := 210000, network_name := "mainnet",
        is_testnet := false }

/-- src/lib.rs `NetworkParameters::testnet`. -/
def NetworkParameters.testnet : CResult NetworkParameters :=
  .ok { magic_bytes := [0x0b, 0x11, 0x09, 0x07], default_port := 18333,
        genesis_block := genesis.testnet_genesis, max_target := 0x1d00ffff,
        halving_interval := 210000, network_name := "testnet",
        is_testnet := true }

/-- src/lib.rs `NetworkParameters::regtest`. -/
def NetworkParameters.regtest : CResult NetworkParameters :=
  .ok { magic_bytes := [0xfa, 0xbf, 0xb5, 0xda], default_port := 18444,
        genesis_block := genesis.regtest_genesis, max_target := 0x207fffff,
        halving_interval := 150, network_name := "regtest",
        is_testnet := true }

/-- src/lib.rs `NetworkParameters::for_version`. -/
def NetworkParameters.for_version : ProtocolVersion → CResult NetworkParameters
  | .BitcoinV1 => NetworkParameters.mainnet
  | .Testnet3 => NetworkParameters.testnet
  | .Regtest => NetworkParameters.regtest

/-- Protocol validation rules (src/validation.rs `ProtocolValidationRules`). -/
structure ProtocolValidationRules where
  max_block_size : Nat
  max_tx_size : Nat
  max_script_size : Nat
  segwit_enabled : Bool
  taproot_enabled : Bool
  rbf_enabled : Bool
  min_fee_rate : Nat
  max_fee_rate : Nat
deriving DecidableEq, Repr

/-- src/validation.rs `ProtocolValidationRules::mainnet`. -/
def ProtocolValidationRules.mainnet : ProtocolValidationRules where
  max_block_size := 4000000
  max_tx_size := 1000000
  max_script_size := 10000
  segwit_enabled := true
  taproot_enabled := true
  rbf_enabled := true
  min_fee_rate := 1
  max_fee_rate := 1000000

/-- src/validation.rs `ProtocolValidationRules::testnet`. -/
def ProtocolValidationRules.testnet : ProtocolValidationRules where
  max_block_size := 4000000
  max_tx_size := 1000000
  max_script_size := 10000
  segwit_enabled := true
  taproot_enabled := true
  rbf_enabled := true
  min_fee_rate := 1
  max_fee_rate := 1000000

/-- src/validation.rs `ProtocolValidationRules::regtest`. -/
def ProtocolValidationRules.regtest : ProtocolValidationRules where
  max_block_size := 4000000
  max_tx_size := 1000000
  max_script_size := 10000
  segwit_enabled := true
  taproot_enabled := true
  rbf_enabled := true
  min_fee_rate := 0
  max_fee_rate := 1000000

/-- src/validation.rs `ProtocolValidationRules::for_protocol`. -/
def ProtocolValidationRules.for_protocol : ProtocolVersion → ProtocolValidationRules
  | .BitcoinV1 => ProtocolValidationRules.mainnet
  | .Testnet3 => ProtocolValidationRules.testnet
  | .Regtest => ProtocolValidationRules.regtest

/-- Protocol validation context (src/validation.rs
`ProtocolValidationContext`); the `context_data` string map is modelled as
an association list. -/
structure ProtocolValidationContext where
  block_height : Nat
  network_params : NetworkParameters
  validation_rules : ProtocolValidationRules
  context_data : List (String × String)
deriving DecidableEq, Repr

/-- src/validation.rs `ProtocolValidationContext::new`. -/
def ProtocolValidationContext.new (version : ProtocolVersion)
    (block_height : Nat) : CResult ProtocolValidationContext := do
  let network_params ← NetworkParameters.for_version version
  let validation_rules := ProtocolValidationRules.for_protocol version
  pure { block_height := block_height, network_params := network_params,
         validation_rules := validation_rules, context_data := [] }

/-- The protocol engine (src/lib.rs `BitcoinProtocolEngine`); `consensus`
is the external collaborator handle. -/
structure BitcoinProtocolEngine where
  consensus : ConsensusProof
  protocol_version : ProtocolVersion
  network_params : NetworkParameters

/-- src/lib.rs `BitcoinProtocolEngine::new`; the consensus handle is a
parameter because `ConsensusProof::new()` belongs to the external crate. -/
def BitcoinProtocolEngine.new (consensus : ConsensusProof)
    (version : ProtocolVersion) : CResult BitcoinProtocolEngine := do
  let network_params ← NetworkParameters.for_version version
  pure { consensus := consensus, protocol_version := version,
         network_params := network_params }

/-- src/lib.rs `BitcoinProtocolEngine::get_protocol_version`. -/
def BitcoinProtocolEngine.get_protocol_version
    (e : BitcoinProtocolEngine) : ProtocolVersion :=
  e.protocol_version

/-- src/validation.rs `BitcoinProtocolEngine::calculate_transaction_size`. -/
def BitcoinProtocolEngine.calculate_transaction_size
    (_e : BitcoinProtocolEngine) (tx : Transaction) : Nat :=
  let version_size := 4
  let input_count_size := 4
  let output_count_size := 4
  let locktime_size := 4
  let input_sizes :=
    (tx.inputs.map (fun input => 32 + 4 + input.script_sig.length + 4)).sum
  let output_sizes :=
    (tx.outputs.map (fun output => 8 + output.script_pubkey.length)).sum
  version_size + input_count_size + input_sizes + output_count_size
    + output_sizes + locktime_size

/-- src/validation.rs `BitcoinProtocolEngine::calculate_block_size`. -/
def BitcoinProtocolEngine.calculate_block_size
    (e : BitcoinProtocolEngine) (block : Block) : Nat :=
  let header_size := 80
  let tx_count_size := 4
  let tx_sizes := (block.transactions.map (e.calculate_transaction_size ·)).sum
  header_size + tx_count_size + tx_sizes

/-- src/validation.rs
`BitcoinProtocolEngine::apply_transaction_protocol_validation`. -/
def BitcoinProtocolEngine.apply_transaction_protocol_validation
    (e : BitcoinProtocolEngine) (tx : Transaction)
    (context : ProtocolValidationContext) : CResult Unit := do
  let tx_size := e.calculate_transaction_size tx
  if tx_size > context.validation_rules.max_tx_size then
    throw (.TransactionValidation "Transaction size exceeds maximum")
  tx.inputs.forM (fun input =>
    if input.script_sig.length > context.validation_rules.max_script_size then
      throw (.TransactionValidation "Script size exceeds maximum")
    else pure ())
  tx.outputs.forM (fun output =>
    if output.script_pubkey.length > context.validation_rules.max_script_size then
      throw (.TransactionValidation "Script size exceeds maximum")
    else pure ())

/-- src/validation.rs `BitcoinProtocolEngine::apply_protocol_validation`. -/
def BitcoinProtocolEngine.apply_protocol_validation
    (e : BitcoinProtocolEngine) (block : Block)
    (context : ProtocolValidationContext) : CResult Unit := do
  let block_size := e.calculate_block_size block
  if block_size > context.validation_rules.max_block_size then
    throw (.BlockValidation "Block size exceeds maximum")
  if block.transactions.length > 10000 then
    throw (.BlockValidation "Too many transactions in block")
  block.transactions.forM
    (fun tx => e.apply_transaction_protocol_validation tx context)

/-- src/validation.rs `BitcoinProtocolEngine::validate_block_with_protocol`. -/
def BitcoinProtocolEngine.validate_block_with_protocol
    (e : BitcoinProtocolEngine) (block : Block) (utxos : UtxoSet)
    (height : Nat) (context : ProtocolValidationContext) :
    CResult ValidationResult := do
  let (consensus_result, _) ← e.consensus.validate_block block utxos height
  e.apply_protocol_validation block context
  pure consensus_result

/-- src/validation.rs
`BitcoinProtocolEngine::validate_transaction_with_protocol`. -/
def BitcoinProtocolEngine.validate_transaction_with_protocol
    (e : BitcoinProtocolEngine) (tx : Transaction)
    (context : ProtocolValidationContext) : CResult ValidationResult := do
  let consensus_result ← e.consensus.validate_transaction tx
  e.apply_transaction_protocol_validation tx context
  pure consensus_result

/-- Network address (src/network.rs `NetworkAddress`). -/
structure NetworkAddress where
  services : Nat
  ip : List Nat
  port : Nat
deriving DecidableEq, Repr

/-- Inventory vector (src/network.rs `InventoryVector`). -/
structure InventoryVector where
  inv_type : Nat
  hash : Hash
deriving DecidableEq, Repr

/-- Version message (src/network.rs `VersionMessage`). -/
structure VersionMessage where
  version : Nat
  services : Nat
  timestamp : Int
  addr_recv : NetworkAddress
  addr_from : NetworkAddress
  nonce : Nat
  user_agent : String
  start_height : Int
  relay : Bool
deriving DecidableEq, Repr

/-- Addr message (src/network.rs `AddrMessage`). -/
structure AddrMessage where
  addresses : List NetworkAddress
deriving DecidableEq, Repr

/-- Inv message (src/network.rs `InvMessage`). -/
structure InvMessage where
  inventory : List InventoryVector
deriving DecidableEq, Repr

/-- GetData message (src/network.rs `GetDataMessage`). -/
structure GetDataMessage where
  inventory : List InventoryVector
deriving DecidableEq, Repr

/-- GetHeaders message (src/network.rs `GetHeadersMessage`). -/
structure GetHeadersMessage where
  version : Nat
  block_locator_hashes : List Hash
  hash_stop : Hash
deriving DecidableEq, Repr

/-- Headers message (src/network.rs `HeadersMessage`). -/
structure HeadersMessage where
  headers : List BlockHeader
deriving DecidableEq, Repr

/-- Ping message (src/network.rs `PingMessage`). -/
structure PingMessage where
  nonce : Nat
deriving DecidableEq, Repr

/-- Pong message (src/network.rs `PongMessage`). -/
structure PongMessage where
  nonce : Nat
deriving DecidableEq, Repr

/-- FeeFilter message (src/network.rs `FeeFilterMessage`). -/
structure FeeFilterMessage where
  feerate : Nat
deriving DecidableEq, Repr

/-- P2P message union (src/network.rs `NetworkMessage`). -/
inductive NetworkMessage where
  | Version (v : VersionMessage)
  | VerAck
  | Addr (a : AddrMessage)
  | Inv (i : InvMessage)
  | GetData (g : GetDataMessage)
  | GetHeaders (g : GetHeadersMessage)
  | Headers (h : HeadersMessage)
  | Block (b : Block)
  | Tx (t : Transaction)
  | Ping (p : PingMessage)
  | Pong (p : PongMessage)
  | MemPool
  | FeeFilter (f : FeeFilterMessage)
deriving DecidableEq, Repr

/-- Handler response (src/network.rs `NetworkResponse`). -/
inductive NetworkResponse where
  | Ok
  | SendMessage (m : NetworkMessage)
  | SendMessages (ms : List NetworkMessage)
  | Reject (reason : String)
deriving DecidableEq, Repr

/-- Per-connection peer state (src/network.rs `PeerState`).  The
`last_pong : Option<SystemTime>` field is modelled with a `Nat` clock
reading; the ambient `SystemTime::now()` is threaded into the handlers as
an explicit `now` parameter. -/
structure PeerState where
  version : Nat
  services : Nat
  user_agent : String
  start_height : Int
  handshake_complete : Bool
  known_addresses : List NetworkAddress
  ping_nonce : Option Nat
  last_pong : Option Nat
  min_fee_rate : Option Nat
deriving DecidableEq, Repr

/-- src/network.rs `PeerState::new`. -/
def PeerState.new : PeerState where
  version := 0
  services := 0
  user_agent := ""
  start_height := 0
  handshake_complete := false
  known_addresses := []
  ping_nonce := none
  last_pong := none
  min_fee_rate := none

/-- Chain object (src/network.rs `ChainObject`). -/
inductive ChainObject where
  | Block (b : Block)
  | Transaction (t : Transaction)
deriving DecidableEq, Repr

/-- Root-level alias: inside the `ChainObject` namespace the bare name
`Block` resolves to the constructor, so the accessor signatures use this. -/
abbrev BlockData := Block

/-- Root-level alias for `Transaction` (see `BlockData`). -/
abbrev TransactionData := Transaction

/-- src/network.rs `ChainObject::as_block`. -/
def ChainObject.as_block : ChainObject → Option BlockData
  | .Block b => some b
  | _ => none

/-- src/network.rs `ChainObject::as_transaction`. -/
def ChainObject.as_transaction : ChainObject → Option TransactionData
  | .Transaction t => some t
  | _ => none

/-- The `ChainStateAccess` trait (src/network.rs), modelled as a record of
the capabilities the node layer provides. -/
structure ChainStateAccess where
  has_object : Hash → Bool
  get_object : Hash → Option ChainObject
  get_headers_for_locator : List Hash → Hash → List BlockHeader
  get_mempool_transactions : List Transaction

/-- src/network.rs `process_version_message`.  Handlers that take
`&mut PeerState` in the source return the updated state alongside the
response. -/
def process_version_message (version : VersionMessage)
    (peer_state : PeerState) : CResult (NetworkResponse × PeerState) :=
  if version.version < 70001 then
    .ok (.Reject "Version too old", peer_state)
  else
    .ok (.SendMessage .VerAck,
      { peer_state with
        version := version.version
        services := version.services
        user_agent := version.user_agent
        start_height := version.start_height })

/-- src/network.rs `process_verack_message`. -/
def process_verack_message (peer_state : PeerState) :
    CResult (NetworkResponse × PeerState) :=
  .ok (.Ok, { peer_state with handshake_complete := true })

/-- src/network.rs `process_addr_message`. -/
def process_addr_message (addr : AddrMessage) (peer_state : PeerState) :
    CResult (NetworkResponse × PeerState) :=
  if addr.addresses.length > 1000 then
    .ok (.Reject "Too many addresses", peer_state)
  else
    .ok (.Ok,
      { peer_state with
        known_addresses := peer_state.known_addresses ++ addr.addresses })

/-- src/network.rs `process_inv_message`. -/
def process_inv_message (inv : InvMessage)
    (chain_access : Option ChainStateAccess) : CResult NetworkResponse :=
  if inv.inventory.length > 50000 then
    .ok (.Reject "Too many inventory items")
  else
    match chain_access with
    | some chain =>
        let needed_items := inv.inventory.filter (fun item => !chain.has_object item.hash)
        if needed_items ≠ [] then
          .ok (.SendMessage (.GetData { inventory := needed_items }))
        else
          .ok .Ok
    | none => .ok .Ok

/-- src/network.rs `process_getdata_message`. -/
def process_getdata_message (getdata : GetDataMessage)
    (chain_access : Option ChainStateAccess) : CResult NetworkResponse :=
  if getdata.inventory.length > 50000 then
    .ok (.Reject "Too many getdata items")
  else
    match chain_access with
    | some chain =>
        let responses := getdata.inventory.filterMap (fun item =>
          match chain.get_object item.hash with
          | some obj =>
              match item.inv_type with
              | 1 => obj.as_transaction.map (fun tx => NetworkMessage.Tx tx)
              | 2 => obj.as_block.map (fun b => NetworkMessage.Block b)
              | _ => none
          | none => none)
        if responses ≠ [] then
          .ok (.SendMessages responses)
        else
          .ok .Ok
    | none => .ok .Ok

/-- src/network.rs `process_getheaders_message`. -/
def process_getheaders_message (getheaders : GetHeadersMessage)
    (chain_access : Option ChainStateAccess) : CResult NetworkResponse :=
  match chain_access with
  | some chain =>
      .ok (.SendMessage (.Headers
        { headers := chain.get_headers_for_locator
            getheaders.block_locator_hashes getheaders.hash_stop }))
  | none => .ok (.Reject "Chain access not available")

/-- src/network.rs `process_headers_message`. -/
def process_headers_message (headers : HeadersMessage) : CResult NetworkResponse :=
  if headers.headers.length > 2000 then
    .ok (.Reject "Too many headers")
  else
    .ok .Ok

/-- src/network.rs `process_block_message`. -/
def process_block_message (engine : BitcoinProtocolEngine) (block : Block)
    (utxo_set : Option UtxoSet) (height : Option Nat) : CResult NetworkResponse :=
  if block.transactions.length > 10000 then
    .ok (.Reject "Too many transactions")
  else
    match utxo_set, height with
    | some utxos, some h => do
        let context ← ProtocolValidationContext.new engine.get_protocol_version h
        let result ← engine.validate_block_with_protocol block utxos h context
        match result with
        | .Valid => pure .Ok
        | .Invalid reason => pure (.Reject ("Invalid block: " ++ reason))
    | _, _ => .ok (.Reject "Missing validation context")

/-- src/network.rs `process_tx_message`. -/
def process_tx_message (engine : BitcoinProtocolEngine) (tx : Transaction)
    (height : Option Nat) : CResult NetworkResponse := do
  let context ← ProtocolValidationContext.new engine.get_protocol_version (height.getD 0)
  let result ← engine.validate_transaction_with_protocol tx context
  match result with
  | .Valid => pure .Ok
  | .Invalid reason => pure (.Reject ("Invalid transaction: " ++ reason))

/-- src/network.rs `process_ping_message` (receives the peer state mutably
but never changes it). -/
def process_ping_message (ping : PingMessage) (peer_state : PeerState) :
    CResult (NetworkResponse × PeerState) :=
  .ok (.SendMessage (.Pong { nonce := ping.nonce }), peer_state)

/-- src/network.rs `process_pong_message`; `now` stands for the
`SystemTime::now()` reading taken on a nonce match. -/
def process_pong_message (pong : PongMessage) (peer_state : PeerState)
    (now : Nat) : CResult (NetworkResponse × PeerState) :=
  if peer_state.ping_nonce == some pong.nonce then
    .ok (.Ok, { peer_state with ping_nonce := none, last_pong := some now })
  else
    .ok (.Ok, peer_state)

/-- src/network.rs `process_mempool_message`. -/
def process_mempool_message (chain_access : Option ChainStateAccess) :
    CResult NetworkResponse :=
  match chain_access with
  | some chain =>
      let responses := chain.get_mempool_transactions.map (fun tx => NetworkMessage.Tx tx)
      if responses ≠ [] then
        .ok (.SendMessages responses)
      else
        .ok .Ok
  | none => .ok .Ok

/-- src/network.rs `process_feefilter_message`. -/
def process_feefilter_message (feefilter : FeeFilterMessage)
    (peer_state : PeerState) : CResult (NetworkResponse × PeerState) :=
  .ok (.Ok, { peer_state with min_fee_rate := some feefilter.feerate })

/-- src/network.rs `process_network_message`.  Handlers whose Rust
signature does not borrow `&mut PeerState` cannot touch it; their response
is paired with the unchanged state here.  `now` threads the ambient clock
used by the pong handler. -/
def process_network_message (engine : BitcoinProtocolEngine)
    (message : NetworkMessage) (peer_state : PeerState)
    (chain_access : Option ChainStateAccess) (utxo_set : Option UtxoSet)
    (height : Option Nat) (now : Nat) : CResult (NetworkResponse × PeerState) :=
  match message with
  | .Version version => process_version_message version peer_state
  | .VerAck => process_verack_message peer_state
  | .Addr addr => process_addr_message addr peer_state
  | .Inv inv => (process_inv_message inv chain_access).map (fun r => (r, peer_state))
  | .GetData getdata =>
      (process_getdata_message getdata chain_access).map (fun r => (r, peer_state))
  | .GetHeaders getheaders =>
      (process_getheaders_message getheaders chain_access).map (fun r => (r, peer_state))
  | .Headers headers =>
      (process_headers_message headers).map (fun r => (r, peer_state))
  | .Block block =>
      (process_block_message engine block utxo_set height).map (fun r => (r, peer_state))
  | .Tx tx => (process_tx_message engine tx height).map (fun r => (r, peer_state))
  | .Ping ping => process_ping_message ping peer_state
  | .Pong pong => process_pong_message pong peer_state now
  | .MemPool => (process_mempool_message chain_access).map (fun r => (r, peer_state))
  | .FeeFilter feefilter => process_feefilter_message feefilter peer_state

/-- C6: a Block message with more than 10000 transactions is rejected with
"Too many transactions" for every engine (hence regardless of consensus
validity); within the limit, a missing UTXO set or height yields the
"Missing validation context" rejection; with both present the handler
delegates to the engine's protocol-aware block validation under a context
freshly built for that height, mapping Valid to Ok and Invalid to Reject. -/
theorem c6_block_message_dispatch (engine : BitcoinProtocolEngine)
    (block : Block) (utxo_set : Option UtxoSet) (height : Option Nat) :
    (block.transactions.length > 10000 →
      process_block_message engine block utxo_set height
        = .ok (.Reject "Too many transactions"))
    ∧ (block.transactions.length ≤ 10000 → utxo_set = none ∨ height = none →
      process_block_message engine block utxo_set height
        = .ok (.Reject "Missing validation context"))
    ∧ (∀ utxos h, block.transactions.length ≤ 10000 →
        utxo_set = some utxos → height = some h →
        process_block_message engine block utxo_set height
          = (ProtocolValidationContext.new engine.get_protocol_version h).bind
              (fun context =>
                (engine.validate_block_with_protocol block utxos h context).bind
                  (fun result =>
                    match result with
                    | .Valid => .ok .Ok
                    | .Invalid reason =>
                        .ok (.Reject ("Invalid block: " ++ reason))))) := by
  refine ⟨fun hgt => ?_, fun hle hmiss => ?_, fun utxos h hle hu hh => ?_⟩
  · simp only [process_block_message]
    rw [if_pos hgt]
  · simp only [process_block_message]
    rw [if_neg (Nat.not_lt.mpr hle)]
    rcases utxo_set with _ | u <;> rcases height with _ | hh <;>
      simp_all
  · subst hu hh
    simp only [process_block_message]
    rw [if_neg (Nat.not_lt.mpr hle)]
    rfl

/-- The consensus collaborator instantiated for witnesses: it accepts every
block and transaction. -/
def trivialConsensus : ConsensusProof where
  validate_block := fun _ utxos _ => .ok (.Valid, utxos)
  validate_transaction := fun _ => .ok .Valid

/-- A concrete mainnet engine for witnesses (the error arm is dead code:
`BitcoinProtocolEngine.new` always succeeds). -/
def testEngine : BitcoinProtocolEngine :=
  match BitcoinProtocolEngine.new trivialConsensus .BitcoinV1 with
  | .ok e => e
  | .error _ =>
      { consensus := trivialConsensus, protocol_version := .BitcoinV1,
        network_params :=
          { magic_bytes := [], default_port := 0,
            genesis_block := genesis.mainnet_genesis, max_target := 0,
            halving_interval := 0, network_name := "", is_testnet := false } }

/-- A block with a single empty transaction, within every protocol limit. -/
def smallTestBlock : Block :=
  { header := { version := 1, prev_block_hash := List.replicate 32 0,
                merkle_root := List.replicate 32 0, timestamp := 1231006505,
                bits := 0x1d00ffff, nonce := 0 },
    transactions := [{ version := 1, inputs := [], outputs := [], lock_time := 0 }] }

theorem c6_block_message_dispatch_witness :
    smallTestBlock.transactions.length ≤ 10000
    ∧ process_block_message testEngine smallTestBlock (some []) (some 5) = .ok .Ok := by
  refine ⟨by decide, ?_⟩
  rw [(c6_block_message_dispatch testEngine smallTestBlock (some []) (some 5)).2.2
    [] 5 (by decide) rfl rfl]
  rfl

/-- C7: a Version message below protocol version 70001 is rejected and the
peer state is returned untouched; at or above the floor the handler records
the peer's version, services, user agent and start height and answers with
VerAck; processing a Version message never changes `handshake_complete`,
which only the VerAck handler sets. -/
theorem c7_version_handshake (version : VersionMessage) (peer_state : PeerState) :
    (version.version < 70001 →
      process_version_message version peer_state
        = .ok (.Reject "Version too old", peer_state))
    ∧ (70001 ≤ version.version →
      process_version_message version peer_state
        = .ok (.SendMessage .VerAck,
            { peer_state with
              version := version.version, services := version.services,
              user_agent := version.user_agent,
              start_height := version.start_height }))
    ∧ (∀ r ps', process_version_message version peer_state = .ok (r, ps') →
        ps'.handshake_complete = peer_state.handshake_complete)
    ∧ process_verack_message peer_state
        = .ok (.Ok, { peer_state with handshake_complete := true }) := by
  refine ⟨fun hlt => ?_, fun hge => ?_, fun r ps' heq => ?_, rfl⟩
  · simp only [process_version_message]
    rw [if_pos hlt]
  · simp only [process_version_message]
    rw [if_neg (Nat.not_lt.mpr hge)]
  · by_cases hlt : version.version < 70001
    · simp only [process_version_message] at heq
      rw [if_pos hlt] at heq
      simp only [Except.ok.injEq, Prod.mk.injEq] at heq
      rw [← heq.2]
    · simp only [process_version_message] at heq
      rw [if_neg hlt] at heq
      simp only [Except.ok.injEq, Prod.mk.injEq] at heq
      rw [← heq.2]

/-- A minimal acceptable Version message (exactly at the protocol floor). -/
def minVersionMsg : VersionMessage :=
  { version := 70001, services := 1, timestamp := 0,
    addr_recv := { services := 0, ip := List.replicate 16 0, port := 8333 },
    addr_from := { services := 0, ip := List.replicate 16 0, port := 8333 },
    nonce := 5, user_agent := "/test/", start_height := 100, relay := true }

theorem c7_version_handshake_witness :
    process_version_message minVersionMsg PeerState.new
      = .ok (.SendMessage .VerAck,
          { PeerState.new with
            version := minVersionMsg.version, services := minVersionMsg.services,
            user_agent := minVersionMsg.user_agent,
            start_height := minVersionMsg.start_height })
    ∧ process_verack_message PeerState.new
      = .ok (.Ok, { PeerState.new with handshake_complete := true }) :=
  ⟨(c7_version_handshake minVersionMsg PeerState.new).2.1 (by decide),
   (c7_version_handshake minVersionMsg PeerState.new).2.2.2⟩

/-- C8: an Addr message carrying more than 1000 addresses is rejected with
"Too many addresses" and the peer state (hence `known_addresses`) is
unchanged; with at most 1000 addresses the handler returns Ok and appends
all of them, growing `known_addresses` by exactly their number. -/
theorem c8_addr_limit (addr : AddrMessage) (peer_state : PeerState) :
    (addr.addresses.length > 1000 →
      process_addr_message addr peer_state
        = .ok (.Reject "Too many addresses", peer_state))
    ∧ (addr.addresses.length ≤ 1000 →
      process_addr_message addr peer_state
        = .ok (.Ok,
            { peer_state with
              known_addresses := peer_state.known_addresses ++ addr.addresses })
      ∧ (peer_state.known_addresses ++ addr.addresses).length
          = peer_state.known_addresses.length + addr.addresses.length) := by
  refine ⟨fun hgt => ?_, fun hle => ⟨?_, List.length_append _ _⟩⟩
  · simp only [process_addr_message]
    rw [if_pos hgt]
  · simp only [process_addr_message]
    rw [if_neg (Nat.not_lt.mpr hle)]

/-- Two concrete peer addresses for the C8 witness. -/
def twoAddrMsg : AddrMessage :=
  { addresses :=
      [ { services := 1, ip := List.replicate 16 0, port := 8333 },
        { services := 1, ip := List.replicate 16 1, port := 8334 } ] }

theorem c8_addr_limit_witness :
    process_addr_message twoAddrMsg PeerState.new
      = .ok (.Ok,
          { PeerState.new with
            known_addresses := PeerState.new.known_addresses ++ twoAddrMsg.addresses })
    ∧ (PeerState.new.known_addresses ++ twoAddrMsg.addresses).length
        = PeerState.new.known_addresses.length + twoAddrMsg.addresses.length :=
  (c8_addr_limit twoAddrMsg PeerState.new).2 (by decide)

theorem map_pair_ok {α : Type} (x : CResult α) (ps : PeerState)
    (r : α) (ps' : PeerState)
    (h : x.map (fun a => (a, ps)) = .ok (r, ps')) : ps' = ps := by
  cases x with
  | ok a =>
      simp only [Except.map, Except.ok.injEq, Prod.mk.injEq] at h
      exact h.2.symm
  | error e => simp only [Except.map] at h; cases h

/-- C10: processing an Inv, GetData, GetHeaders, Headers, Block, Tx,
MemPool or Ping message leaves the peer state record unchanged (only the
Version, VerAck, Addr, Pong and FeeFilter handlers receive-and-rewrite
peer-state fields). -/
theorem c10_peer_state_frame (engine : BitcoinProtocolEngine)
    (peer_state : PeerState) (chain_access : Option ChainStateAccess)
    (utxo_set : Option UtxoSet) (height : Option Nat) (now : Nat) :
    (∀ inv r ps', process_network_message engine (.Inv inv) peer_state
        chain_access utxo_set height now = .ok (r, ps') → ps' = peer_state)
    ∧ (∀ getdata r ps', process_network_message engine (.GetData getdata) peer_state
        chain_access utxo_set height now = .ok (r, ps') → ps' = peer_state)
    ∧ (∀ getheaders r ps', process_network_message engine (.GetHeaders getheaders) peer_state
        chain_access utxo_set height now = .ok (r, ps') → ps' = peer_state)
    ∧ (∀ headers r ps', process_network_message engine (.Headers headers) peer_state
        chain_access utxo_set height now = .ok (r, ps') → ps' = peer_state)
    ∧ (∀ block r ps', process_network_message engine (.Block block) peer_state
        chain_access utxo_set height now = .ok (r, ps') → ps' = peer_state)
    ∧ (∀ tx r ps', process_network_message engine (.Tx tx) peer_state
        chain_access utxo_set height now = .ok (r, ps') → ps' = peer_state)
    ∧ (∀ r ps', process_network_message engine .MemPool peer_state
        chain_access utxo_set height now = .ok (r, ps') → ps' = peer_state)
    ∧ (∀ ping r ps', process_network_message engine (.Ping ping) peer_state
        chain_access utxo_set height now = .ok (r, ps') → ps' = peer_state) := by
  refine ⟨fun inv r ps' h => map_pair_ok _ _ _ _ h,
    fun getdata r ps' h => map_pair_ok _ _ _ _ h,
    fun getheaders r ps' h => map_pair_ok _ _ _ _ h,
    fun headers r ps' h => map_pair_ok _ _ _ _ h,
    fun block r ps' h => map_pair_ok _ _ _ _ h,
    fun tx r ps' h => map_pair_ok _ _ _ _ h,
    fun r ps' h => map_pair_ok _ _ _ _ h,
    fun ping r ps' h => ?_⟩
  simp only [process_network_message, process_ping_message,
    Except.ok.injEq, Prod.mk.injEq] at h
  exact h.2.symm

theorem c10_peer_state_frame_witness :
    process_network_message testEngine (.Ping { nonce := 7 }) PeerState.new
        none none none 0
      = .ok (.SendMessage (.Pong { nonce := 7 }), PeerState.new)
    ∧ PeerState.new = PeerState.new :=
  ⟨rfl,
   (c10_peer_state_frame testEngine PeerState.new none none none 0).2.2.2.2.2.2.2
     { nonce := 7 } (.SendMessage (.Pong { nonce := 7 })) PeerState.new rfl⟩
